import Mathlib

/-!
Verification of the library-management service against its specification.

The business-logic module (`src/library_service.py`) is shallowly embedded:
each Python function becomes a Lean function over an explicit store state,
Python `datetime` values become integer seconds since the epoch, and monetary
amounts become exact rationals (every float literal in the source — 0.50,
1.00, 15.00 — and every amount reachable from them is a whole multiple of
0.50, which binary floating point represents exactly in this range, so ℚ
arithmetic agrees with the source float arithmetic on all reachable values).

The persistent store (the `database` module) is an external collaborator that
is not part of the embedded sources; its CRUD primitives are modelled from
the specification §6 interface contracts, as noted on each definition.
-/

namespace LibraryMgmt

/-- Number of seconds in one day, for Python `timedelta` day arithmetic. -/
def secondsPerDay : ℤ := 86400

/-- Python builtin `min(a, b)` on two monetary values. -/
def pymin (a b : ℚ) : ℚ := if a ≤ b then a else b

/-- Python `(t2 - t1).days` on datetimes held as seconds since the epoch:
the floor of the difference in whole days (Lean integer `/` with a positive
divisor floors, matching Python timedelta semantics). -/
def daysBetween (t2 t1 : ℤ) : ℤ := (t2 - t1) / secondsPerDay

/-- Python `round(x, 2)`.  Every fee amount produced by the service is a
whole multiple of 1/2, so `x * 100` is an integer and rounding returns `x`
unchanged; ties at half a cent can therefore never occur and round-half-up
agrees with Python round-half-even on all reachable inputs. -/
def round2 (q : ℚ) : ℚ := ((⌊q * 100 + 1/2⌋ : ℤ) : ℚ) / 100

/-- Late-fee expression of the return-processing path,
`return_book_by_patron`, src/library_service.py lines 96–100:
`days_overdue * 0.50` for `days_overdue <= 7`, otherwise
`7*0.50 + (days_overdue - 7)*1.00`, then `min(late_fee, 15.00)`. -/
def returnPathFee (days_overdue : ℤ) : ℚ :=
  pymin (if days_overdue ≤ 7 then (days_overdue : ℚ) * (1/2)
         else 7 * (1/2) + ((days_overdue - 7 : ℤ) : ℚ) * 1) 15

/-- Late-fee expression of the on-demand fee-query path,
`calculate_late_fee_for_book`, src/library_service.py lines 153–157. -/
def queryPathFee (days_overdue : ℤ) : ℚ :=
  pymin (if days_overdue ≤ 7 then (days_overdue : ℚ) * (1/2)
         else 7 * (1/2) + ((days_overdue - 7 : ℤ) : ℚ) * 1) 15

/-- Late-fee expression of the patron-status aggregation path,
`get_patron_status_report`, src/library_service.py lines 195–199. -/
def statusPathFee (days_overdue : ℤ) : ℚ :=
  pymin (if days_overdue ≤ 7 then (days_overdue : ℚ) * (1/2)
         else 7 * (1/2) + ((days_overdue - 7 : ℤ) : ℚ) * 1) 15

/-- Catalog row: one book, as held by the Catalog Store (spec §3). -/
structure Book where
  id : ℤ
  title : String
  author : String
  isbn : String
  total_copies : ℤ
  available_copies : ℤ
deriving DecidableEq

/-- Ledger row: one borrow record; `return_date = none` means active (spec §3). -/
structure BorrowRecord where
  patron_id : String
  book_id : ℤ
  borrow_date : ℤ
  due_date : ℤ
  return_date : Option ℤ
deriving DecidableEq

/-- The shared mutable store: catalog rows, ledger rows, and the next
auto-assigned book id. -/
structure LibraryState where
  books : List Book
  records : List BorrowRecord
  nextId : ℤ
deriving DecidableEq

/-- Modelled from the spec: `database.get_book_by_id`, the Catalog Store
lookup-by-id contract (§6). -/
def get_book_by_id (st : LibraryState) (book_id : ℤ) : Option Book :=
  st.books.find? (fun bk => bk.id == book_id)

/-- Modelled from the spec: `database.get_book_by_isbn`, the Catalog Store
lookup-by-isbn contract (§6). -/
def get_book_by_isbn (st : LibraryState) (isbn : String) : Option Book :=
  st.books.find? (fun bk => bk.isbn == isbn)

/-- Modelled from the spec: `database.insert_book`, the Catalog Store insert
contract (§6); the store assigns the next auto-increment id. -/
def insert_book (st : LibraryState) (title author isbn : String)
    (total available : ℤ) : LibraryState :=
  { st with
    books := st.books ++ [{ id := st.nextId, title := title, author := author,
                            isbn := isbn, total_copies := total,
                            available_copies := available }],
    nextId := st.nextId + 1 }

/-- Modelled from the spec: `database.update_book_availability(book_id, delta)`,
the adjust-available-copies contract (§6): a keyed update adds `delta` to the
available-copies column of every row whose id matches. -/
def update_book_availability (st : LibraryState) (book_id : ℤ) (delta : ℤ) :
    LibraryState :=
  { st with books := st.books.map (fun bk =>
      if bk.id == book_id
      then { bk with available_copies := bk.available_copies + delta }
      else bk) }

/-- Modelled from the spec: `database.get_patron_borrow_count`, the count of
the patron's active (null return timestamp) records across all books (§4.2, §6). -/
def get_patron_borrow_count (st : LibraryState) (patron_id : String) : ℕ :=
  (st.records.filter (fun r =>
    r.patron_id == patron_id && r.return_date == none)).length

/-- Modelled from the spec: `database.insert_borrow_record`, the Borrow Ledger
insert-active-record contract (§6). -/
def insert_borrow_record (st : LibraryState) (patron_id : String) (book_id : ℤ)
    (borrow_date due_date : ℤ) : LibraryState :=
  { st with records := st.records ++
      [{ patron_id := patron_id, book_id := book_id, borrow_date := borrow_date,
         due_date := due_date, return_date := none }] }

/-- Modelled from the spec: `database.get_borrow_record`, the Borrow Ledger
find-active-record(patron_id, book_id) contract (§6). -/
def get_borrow_record (st : LibraryState) (patron_id : String) (book_id : ℤ) :
    Option BorrowRecord :=
  st.records.find? (fun r =>
    r.patron_id == patron_id && r.book_id == book_id && r.return_date == none)

/-- Modelled from the spec: `database.update_borrow_record_return_date`, the
Borrow Ledger finalize-return contract (§6): a keyed update sets the return
timestamp on the active record(s) of the (patron, book) pair. -/
def update_borrow_record_return_date (st : LibraryState) (patron_id : String)
    (book_id : ℤ) (return_date : ℤ) : LibraryState :=
  { st with records := st.records.map (fun r =>
      if r.patron_id == patron_id && r.book_id == book_id && r.return_date == none
      then { r with return_date := some return_date }
      else r) }

/-- Python `str.strip()`: drop leading and trailing whitespace characters. -/
def pyStrip (s : String) : String :=
  ⟨((s.data.dropWhile Char.isWhitespace).reverse.dropWhile
      Char.isWhitespace).reverse⟩

/-- Patron-id validation shared by the lifecycle operations
(src/library_service.py line 49 and its copies): the Python test
`patron_id and patron_id.isdigit() and len(patron_id) == 6`. -/
def validPatronId (patron_id : String) : Bool :=
  !patron_id.data.isEmpty && patron_id.data.all Char.isDigit &&
    patron_id.data.length == 6

/-- Proleptic-Gregorian civil date (year, month, day) from days since
1970-01-01, used only to model Python `strftime("%Y-%m-%d")` in outcome
messages. -/
def civilFromDays (z0 : ℤ) : ℤ × ℤ × ℤ :=
  let z := z0 + 719468
  let era := (if 0 ≤ z then z else z - 146096) / 146097
  let doe := z - era * 146097
  let yoe := (doe - doe / 1460 + doe / 36524 - doe / 146096) / 365
  let y := yoe + era * 400
  let doy := doe - (365 * yoe + yoe / 4 - yoe / 100)
  let mp := (5 * doy + 2) / 153
  let d := doy - (153 * mp + 2) / 5 + 1
  let m := mp + (if mp < 10 then 3 else -9)
  (y + (if m ≤ 2 then 1 else 0), m, d)

/-- Two-digit zero padding for date and money formatting. -/
def pad2 (n : ℤ) : String := if n < 10 then "0" ++ toString n else toString n

/-- Python `strftime("%Y-%m-%d")` on a datetime held as epoch seconds. -/
def formatYmd (t : ℤ) : String :=
  let c := civilFromDays (t / secondsPerDay)
  toString c.1 ++ "-" ++ pad2 c.2.1 ++ "-" ++ pad2 c.2.2

/-- Python `f"{x:.2f}"` on a non-negative fee amount. -/
def formatMoney (q : ℚ) : String :=
  let c : ℤ := ⌊q * 100 + 1/2⌋
  toString (c / 100) ++ "." ++ pad2 (c % 100)

/-- Operation `add_book_to_catalog` (src/library_service.py lines 15–44);
`total_copies : ℤ` models the Python int (the `isinstance` half of the check
on line 33 is satisfied by typing).  The store insert is modelled as
succeeding; a fallible-store variant is given for the borrow operation,
where a claim depends on write failures. -/
def add_book_to_catalog (st : LibraryState) (title author isbn : String)
    (total_copies : ℤ) : (Bool × String) × LibraryState :=
  if (pyStrip title).data.isEmpty then
    ((false, "Title is required."), st)
  else if 200 < (pyStrip title).data.length then
    ((false, "Title must be less than 200 characters."), st)
  else if (pyStrip author).data.isEmpty then
    ((false, "Author is required."), st)
  else if 100 < (pyStrip author).data.length then
    ((false, "Author must be less than 100 characters."), st)
  else if isbn.data.length ≠ 13 then
    ((false, "ISBN must be exactly 13 digits."), st)
  else if total_copies ≤ 0 then
    ((false, "Total copies must be a positive integer."), st)
  else
    match get_book_by_isbn st isbn with
    | some _ => ((false, "A book with this ISBN already exists."), st)
    | none =>
        ((true, "Book \"" ++ pyStrip title ++
                "\" has been successfully added to the catalog."),
         insert_book st (pyStrip title) (pyStrip author) isbn
           total_copies total_copies)

/-- Operation `borrow_book_by_patron` (src/library_service.py lines 46–74).
`now` is the value returned by the `datetime.now()` call on line 63 — the
ambient wall clock at execution time, not a parameter of the Python function.
`insertOk` and `updateOk` model whether the two store writes
(`insert_borrow_record` line 66, `update_book_availability` line 70) succeed;
the source checks each success flag and returns an error message on failure,
with no rollback of the earlier write. -/
def borrow_book_by_patron_w (insertOk updateOk : Bool) (now : ℤ)
    (st : LibraryState) (patron_id : String) (book_id : ℤ) :
    (Bool × String) × LibraryState :=
  if !validPatronId patron_id then
    ((false, "Invalid patron ID. Must be exactly 6 digits."), st)
  else
    match get_book_by_id st book_id with
    | none => ((false, "Book not found."), st)
    | some book =>
      if book.available_copies ≤ 0 then
        ((false, "This book is currently not available."), st)
      else if 5 ≤ get_patron_borrow_count st patron_id then
        ((false, "You have reached the maximum borrowing limit of 5 books."), st)
      else
        let borrow_date := now
        let due_date := borrow_date + 14 * secondsPerDay
        if !insertOk then
          ((false, "Database error occurred while creating borrow record."), st)
        else
          let st1 := insert_borrow_record st patron_id book_id borrow_date due_date
          if !updateOk then
            ((false, "Database error occurred while updating book availability."),
             st1)
          else
            ((true, "Successfully borrowed \"" ++ book.title ++
                    "\". Due date: " ++ formatYmd due_date ++ "."),
             update_book_availability st1 book_id (-1))

/-- Operation `borrow_book_by_patron` on a store whose writes succeed (the
fault-free run of lines 46–74). -/
def borrow_book_by_patron (now : ℤ) (st : LibraryState) (patron_id : String)
    (book_id : ℤ) : (Bool × String) × LibraryState :=
  borrow_book_by_patron_w true true now st patron_id book_id

/-- Operation `return_book_by_patron` (src/library_service.py lines 76–113).
`now` is the `datetime.now()` value of line 90; `retOk` and `updOk` model
success of the two store writes (lines 102 and 106). -/
def return_book_by_patron_w (retOk updOk : Bool) (now : ℤ) (st : LibraryState)
    (patron_id : String) (book_id : ℤ) : (Bool × String) × LibraryState :=
  if !validPatronId patron_id then
    ((false, "Invalid patron ID. Must be exactly 6 digits."), st)
  else
    match get_book_by_id st book_id with
    | none => ((false, "Book not found."), st)
    | some book =>
      match get_borrow_record st patron_id book_id with
      | none =>
          ((false,
            "This book is not currently borrowed by you or has already been returned."),
           st)
      | some record =>
        let return_date := now
        let due_date := record.due_date
        let late_fee : ℚ :=
          if due_date < return_date then returnPathFee (daysBetween return_date due_date)
          else 0
        if !retOk then
          ((false, "Database error occurred while updating return record."), st)
        else
          let st1 := update_borrow_record_return_date st patron_id book_id return_date
          if !updOk then
            ((false, "Database error occurred while updating book availability."),
             st1)
          else
            let st2 := update_book_availability st1 book_id 1
            if 0 < late_fee then
              ((true, "Successfully returned \"" ++ book.title ++
                      "\". Late fee: $" ++ formatMoney late_fee ++ "."), st2)
            else
              ((true, "Successfully returned \"" ++ book.title ++
                      "\". No late fee."), st2)

/-- Operation `return_book_by_patron` on a store whose writes succeed (the
fault-free run of lines 76–113). -/
def return_book_by_patron (now : ℤ) (st : LibraryState) (patron_id : String)
    (book_id : ℤ) : (Bool × String) × LibraryState :=
  return_book_by_patron_w true true now st patron_id book_id

/-- Structured result of the on-demand fee query (spec §3 LateFeeResult). -/
structure LateFeeResult where
  fee_amount : ℚ
  days_overdue : ℤ
  status : String
deriving DecidableEq

/-- Operation `calculate_late_fee_for_book` (src/library_service.py lines
115–163), read-only.  `now` is the `datetime.now()` value of line 141. -/
def calculate_late_fee_for_book (now : ℤ) (st : LibraryState)
    (patron_id : String) (book_id : ℤ) : LateFeeResult :=
  if !validPatronId patron_id then
    { fee_amount := 0, days_overdue := 0,
      status := "Invalid patron ID. Must be exactly 6 digits." }
  else
    match get_book_by_id st book_id with
    | none => { fee_amount := 0, days_overdue := 0, status := "Book not found." }
    | some book =>
      match get_borrow_record st patron_id book_id with
      | none =>
          { fee_amount := 0, days_overdue := 0,
            status := "This book is not currently borrowed by you." }
      | some record =>
        if now ≤ record.due_date then
          { fee_amount := 0, days_overdue := 0, status := "Book is not overdue." }
        else
          let days_overdue := daysBetween now record.due_date
          { fee_amount := round2 (queryPathFee days_overdue),
            days_overdue := days_overdue,
            status := "Late fee calculated for \"" ++ book.title ++ "\"." }

/-- Modelled from the spec: `database.get_patron_borrowed_books` — every
active record of the patron joined with its book, annotated with is_overdue
(reference time strictly later than the due timestamp, §4.3 and glossary). -/
def get_patron_borrowed_books (now : ℤ) (st : LibraryState)
    (patron_id : String) : List (BorrowRecord × Book × Bool) :=
  (st.records.filter (fun r =>
      r.patron_id == patron_id && r.return_date == none)).filterMap
    (fun r => (get_book_by_id st r.book_id).map
      (fun bk => (r, bk, decide (r.due_date < now))))

/-- Fee aggregation of `get_patron_status_report` (src/library_service.py
lines 188–200 and 231): total late fees over the currently overdue active
records, rounded for reporting.  `now` is the `datetime.now()` of line 190. -/
def patron_total_late_fees (now : ℤ) (st : LibraryState)
    (patron_id : String) : ℚ :=
  round2 (((get_patron_borrowed_books now st patron_id).filter
      (fun x => x.2.2)).foldl
    (fun acc x => acc + statusPathFee (daysBetween now x.1.due_date)) 0)

/-- Number of active borrow records of one (patron, book) pair. -/
def active_pair_count (st : LibraryState) (patron_id : String) (book_id : ℤ) : ℕ :=
  (st.records.filter (fun r =>
    r.patron_id == patron_id && r.book_id == book_id &&
      r.return_date == none)).length

/-- Number of active borrow records of one book, across all patrons. -/
def book_active_count (st : LibraryState) (book_id : ℤ) : ℕ :=
  (st.records.filter (fun r =>
    r.book_id == book_id && r.return_date == none)).length

/-- Copy-count safety for one book id: if the book is in the catalog, its
available-copies count is non-negative and, together with the book's active
loans, bounded by its total copies. -/
def copiesInvB (st : LibraryState) (book_id : ℤ) : Bool :=
  match get_book_by_id st book_id with
  | none => true
  | some bk =>
      decide (0 ≤ bk.available_copies) &&
      decide (bk.available_copies + (book_active_count st book_id : ℤ) ≤
        bk.total_copies)

/-- One lifecycle request: a borrow or a return, with the wall-clock value
observed during it. -/
inductive LibOp where
  | borrowOp (now : ℤ) (patron_id : String) (book_id : ℤ)
  | returnOp (now : ℤ) (patron_id : String) (book_id : ℤ)

/-- State reached after one lifecycle request (fault-free store). -/
def applyOp (st : LibraryState) : LibOp → LibraryState
  | .borrowOp now p b => (borrow_book_by_patron now st p b).2
  | .returnOp now p b => (return_book_by_patron now st p b).2

/-- State reached after a sequence of lifecycle requests. -/
def runOps (st : LibraryState) (ops : List LibOp) : LibraryState :=
  ops.foldl applyOp st

lemma pymin_eq_left {a b : ℚ} (h : a ≤ b) : pymin a b = a := if_pos h

lemma pymin_eq_right {a b : ℚ} (h : ¬a ≤ b) : pymin a b = b := if_neg h

lemma pymin_mono {a b c : ℚ} (h : a ≤ b) : pymin a c ≤ pymin b c := by
  unfold pymin
  split_ifs <;> linarith

lemma queryPathFee_monoInt {a b : ℤ} (h : a ≤ b) :
    queryPathFee a ≤ queryPathFee b := by
  unfold queryPathFee
  apply pymin_mono
  have hq : (a : ℚ) ≤ (b : ℚ) := by exact_mod_cast h
  by_cases ha : a ≤ 7 <;> by_cases hb : b ≤ 7
  · simp only [ha, hb, if_true]
    linarith
  · have ha' : (a : ℚ) ≤ 7 := by exact_mod_cast ha
    have hb' : (7 : ℚ) < (b : ℚ) := by exact_mod_cast not_le.mp hb
    simp only [ha, hb, if_true, if_false]
    push_cast
    linarith
  · omega
  · simp only [ha, hb, if_false]
    push_cast
    linarith

/-- C1: the late-fee computation, as a function of the overdue-day count d,
returns 0 at d = 0, d × 0.50 on 1 ≤ d ≤ 7, and 3.50 + (d − 7) × 1.00 capped
at 15.00 for d > 7; in particular fee(7) = 3.50, fee(8) = 4.50,
fee(d) = 15.00 for every d ≥ 23, and fee is monotonically non-decreasing. -/
theorem late_fee_rate_policy_c1 :
    queryPathFee 0 = 0 ∧
    (∀ d : ℕ, 1 ≤ d → d ≤ 7 → queryPathFee (d : ℤ) = (d : ℚ) * (1/2)) ∧
    (∀ d : ℕ, 7 < d →
      queryPathFee (d : ℤ) = pymin (7/2 + ((d : ℚ) - 7) * 1) 15) ∧
    queryPathFee 7 = 7/2 ∧
    queryPathFee 8 = 9/2 ∧
    (∀ d : ℕ, 23 ≤ d → queryPathFee (d : ℤ) = 15) ∧
    (∀ d e : ℕ, d ≤ e → queryPathFee (d : ℤ) ≤ queryPathFee (e : ℤ)) := by
  refine ⟨?_, ?_, ?_, ?_, ?_, ?_, ?_⟩
  · norm_num [queryPathFee, pymin]
  · intro d h1 h7
    have h7z : (d : ℤ) ≤ 7 := by exact_mod_cast h7
    have h7q : (d : ℚ) ≤ 7 := by exact_mod_cast h7
    rw [queryPathFee, if_pos h7z, pymin_eq_left (by push_cast; linarith)]
    push_cast
    ring
  · intro d h7
    have h7z : ¬((d : ℤ) ≤ 7) := by exact_mod_cast not_le.mpr h7
    rw [queryPathFee, if_neg h7z]
    congr 1
    push_cast
    norm_num
  · norm_num [queryPathFee, pymin]
  · norm_num [queryPathFee, pymin]
  · intro d h23
    have h7z : ¬((d : ℤ) ≤ 7) := by omega
    have h23q : (23 : ℚ) ≤ (d : ℚ) := by exact_mod_cast h23
    rw [queryPathFee, if_neg h7z, pymin_eq_right (by push_cast; linarith)]
  · intro d e h
    exact queryPathFee_monoInt (by exact_mod_cast h)

/-- Closed instance of `late_fee_rate_policy_c1`. -/
theorem late_fee_rate_policy_c1_witness :
    queryPathFee 5 = (5 : ℚ) * (1/2) ∧ queryPathFee 30 = 15 ∧
    queryPathFee 3 ≤ queryPathFee 5 :=
  ⟨late_fee_rate_policy_c1.2.1 5 (by decide) (by decide),
   late_fee_rate_policy_c1.2.2.2.2.2.1 30 (by decide),
   late_fee_rate_policy_c1.2.2.2.2.2.2 3 5 (by decide)⟩

/-- C7: the three fee-computing code paths — return processing (lines 96–100),
the on-demand fee query (lines 153–157) and the patron-status aggregation
(lines 195–199) — compute the same fee amount at every overdue-day count. -/
theorem fee_paths_agree_c7 :
    ∀ d : ℤ, returnPathFee d = queryPathFee d ∧ queryPathFee d = statusPathFee d :=
  fun _ => ⟨rfl, rfl⟩

/-- Store state for the duplicate-borrow scenario: book 1 has 2 total copies,
1 still available, and patron 123456 already holds one active loan of it. -/
def stC2 : LibraryState :=
  ⟨[⟨1, "B", "A", "1111111111111", 2, 1⟩],
   [⟨"123456", 1, 0, 1209600, none⟩], 2⟩

/-- C2: counterexample.  With a copy still available, a second borrow of the
same (patron, book) pair while the first is active is accepted, mutates the
state, and leaves two active records for the pair — the engine never checks
for an existing active record (src/library_service.py lines 46–74). -/
theorem duplicate_active_borrow_allowed_c2 :
    active_pair_count stC2 "123456" 1 = 1 ∧
    (borrow_book_by_patron 1000 stC2 "123456" 1).1.1 = true ∧
    (borrow_book_by_patron 1000 stC2 "123456" 1).2 ≠ stC2 ∧
    active_pair_count (borrow_book_by_patron 1000 stC2 "123456" 1).2
      "123456" 1 = 2 := by
  decide

/-- Store state for the partial-write scenario: one book, 3 of 3 copies
available, no loans. -/
def stC3 : LibraryState := ⟨[⟨1, "B", "A", "1111111111111", 3, 3⟩], [], 2⟩

/-- C3: counterexample.  When the availability decrement (line 70) fails
after the record insert (line 66) succeeded, the borrow reports failure but
the inserted active record stays visible and available_copies is not
decremented — the partial effect is not rolled back. -/
theorem partial_borrow_write_visible_c3 :
    (borrow_book_by_patron_w true false 0 stC3 "123456" 1).1 =
      (false, "Database error occurred while updating book availability.") ∧
    (borrow_book_by_patron_w true false 0 stC3 "123456" 1).2.records =
      [⟨"123456", 1, 0, 1209600, none⟩] ∧
    get_book_by_id (borrow_book_by_patron_w true false 0 stC3 "123456" 1).2 1 =
      some ⟨1, "B", "A", "1111111111111", 3, 3⟩ ∧
    (borrow_book_by_patron_w true false 0 stC3 "123456" 1).2 ≠ stC3 := by
  decide

/-- Store state for the clock-dependence scenario: one fresh book. -/
def stC4 : LibraryState := ⟨[⟨1, "B", "A", "1111111111111", 3, 3⟩], [], 2⟩

/-- Store state for the clock-dependence fee query: an active loan due at
epoch second 1209600. -/
def stC4b : LibraryState :=
  ⟨[⟨1, "B", "A", "1111111111111", 2, 1⟩],
   [⟨"123456", 1, 0, 1209600, none⟩], 2⟩

/-- C4: counterexample.  The operations read the wall clock internally
(`datetime.now()`, lines 63, 90, 141, 190) instead of taking the reference
time as a parameter: two runs of the same operation with the same arguments
and the same store state, one day apart, produce different resulting states
(borrow) and different statuses (fee query). -/
theorem hidden_clock_dependence_c4 :
    (borrow_book_by_patron 0 stC4 "123456" 1).2 ≠
      (borrow_book_by_patron 86400 stC4 "123456" 1).2 ∧
    (calculate_late_fee_for_book 1209601 stC4b "123456" 1).status ≠
      (calculate_late_fee_for_book 1209600 stC4b "123456" 1).status := by
  decide

/-- Empty catalog for the ISBN-validation scenario. -/
def stC5 : LibraryState := ⟨[], [], 1⟩

/-- C5: counterexample.  `add_book_to_catalog` only checks `len(isbn) == 13`
(line 30): the 13-character string "12345678901XY", which contains
non-digit characters, is accepted and inserted into the catalog instead of
being rejected with the ISBN rejection reason. -/
theorem isbn_digit_check_missing_c5 :
    ("12345678901XY".data.length = 13 ∧
     "12345678901XY".data.all Char.isDigit = false) ∧
    add_book_to_catalog stC5 "T" "Au" "12345678901XY" 1 =
      ((true, "Book \"T\" has been successfully added to the catalog."),
       ⟨[⟨1, "T", "Au", "12345678901XY", 1, 1⟩], [], 2⟩) := by
  decide


/-- Store state for the borrowing-cap scenario: patron 123456 holds 5 active
loans (books 1–5, single copies, all lent out); book 6 has a copy available. -/
def stC6 : LibraryState :=
  ⟨[⟨1, "Book 1", "A", "0000000000001", 1, 0⟩,
    ⟨2, "Book 2", "A", "0000000000002", 1, 0⟩,
    ⟨3, "Book 3", "A", "0000000000003", 1, 0⟩,
    ⟨4, "Book 4", "A", "0000000000004", 1, 0⟩,
    ⟨5, "Book 5", "A", "0000000000005", 1, 0⟩,
    ⟨6, "Book 6", "A", "0000000000006", 1, 1⟩],
   [⟨"123456", 1, 0, 1209600, none⟩, ⟨"123456", 2, 0, 1209600, none⟩,
    ⟨"123456", 3, 0, 1209600, none⟩, ⟨"123456", 4, 0, 1209600, none⟩,
    ⟨"123456", 5, 0, 1209600, none⟩], 7⟩

/-- C6: the borrowing cap is inclusive at 5 — a valid borrow attempt by a
patron with 5 or more active records is rejected with the borrowing-limit
error and unchanged state, one with 4 or fewer passes the cap check and
succeeds, a 6th concurrent loan is rejected, and returning one of the 5
allows a new borrow to succeed. -/
theorem borrow_cap_inclusive_c6 :
    (∀ now st p b bk, validPatronId p = true → get_book_by_id st b = some bk →
        0 < bk.available_copies → 5 ≤ get_patron_borrow_count st p →
        borrow_book_by_patron now st p b =
          ((false, "You have reached the maximum borrowing limit of 5 books."), st)) ∧
    (∀ now st p b bk, validPatronId p = true → get_book_by_id st b = some bk →
        0 < bk.available_copies → get_patron_borrow_count st p ≤ 4 →
        (borrow_book_by_patron now st p b).1.1 = true) ∧
    ((borrow_book_by_patron 100 stC6 "123456" 6).1 =
        (false, "You have reached the maximum borrowing limit of 5 books.") ∧
     (borrow_book_by_patron 100
        (return_book_by_patron 100 stC6 "123456" 1).2 "123456" 6).1.1 = true) := by
  refine ⟨?_, ?_, ?_⟩
  · intro now st p b bk hp hbk hav hcnt
    simp [borrow_book_by_patron, borrow_book_by_patron_w, hp, hbk, hcnt,
      not_le.mpr hav]
  · intro now st p b bk hp hbk hav hcnt
    have h5 : ¬5 ≤ get_patron_borrow_count st p := by omega
    simp [borrow_book_by_patron, borrow_book_by_patron_w, hp, hbk, h5,
      not_le.mpr hav]
  · exact ⟨by decide, by decide⟩

/-- Distinctness of the fee-calculated status from the not-overdue status,
whatever the book title. -/
lemma lateFeeStatus_ne_notOverdue (t : String) :
    "Late fee calculated for \"" ++ t ++ "\"." ≠ "Book is not overdue." := by
  intro h
  have hl := congrArg String.length h
  rw [String.length_append, String.length_append] at hl
  have h1 : ("Late fee calculated for \"" : String).length = 25 := rfl
  have h2 : ("\"." : String).length = 2 := rfl
  have h3 : ("Book is not overdue." : String).length = 20 := rfl
  omega

/-- C10: an active record whose due time has passed by less than one whole
day yields fee_amount 0.00 and days_overdue 0 with the fee-calculated status
naming the book; the not-overdue status arises only when now ≤ due. -/
theorem sub_day_overdue_fee_c10 :
    (∀ now st p b bk rec, validPatronId p = true →
        get_book_by_id st b = some bk → get_borrow_record st p b = some rec →
        rec.due_date < now → now - rec.due_date < 86400 →
        calculate_late_fee_for_book now st p b =
          ⟨0, 0, "Late fee calculated for \"" ++ bk.title ++ "\"."⟩) ∧
    (∀ now st p b, (calculate_late_fee_for_book now st p b).status =
        "Book is not overdue." →
      ∃ rec, get_borrow_record st p b = some rec ∧ now ≤ rec.due_date) := by
  constructor
  · intro now st p b bk rec hp hbk hrec hlt hday
    have hd0 : daysBetween now rec.due_date = 0 := by
      unfold daysBetween secondsPerDay
      exact Int.ediv_eq_zero_of_lt (by omega) (by omega)
    have hnle : ¬now ≤ rec.due_date := not_le.mpr hlt
    simp [calculate_late_fee_for_book, hp, hbk, hrec, hnle, hd0]
    norm_num [round2, queryPathFee, pymin]
  · intro now st p b h
    unfold calculate_late_fee_for_book at h
    cases hpv : validPatronId p
    · rw [hpv] at h
      have h3 : ("Invalid patron ID. Must be exactly 6 digits." : String) =
          "Book is not overdue." := h
      exact absurd h3 (by decide)
    · rw [hpv] at h
      cases hbk : get_book_by_id st b
      · rw [hbk] at h
        have h3 : ("Book not found." : String) = "Book is not overdue." := h
        exact absurd h3 (by decide)
      · rw [hbk] at h
        cases hrec : get_borrow_record st p b
        · rw [hrec] at h
          have h3 : ("This book is not currently borrowed by you." : String) =
              "Book is not overdue." := h
          exact absurd h3 (by decide)
        · rename_i bk rec
          rw [hrec] at h
          by_cases hle : now ≤ rec.due_date
          · exact ⟨rec, rfl, hle⟩
          · have h2 : (if now ≤ rec.due_date
                then ({ fee_amount := 0, days_overdue := 0,
                        status := "Book is not overdue." } : LateFeeResult)
                else { fee_amount := round2 (queryPathFee (daysBetween now rec.due_date)),
                       days_overdue := daysBetween now rec.due_date,
                       status := "Late fee calculated for \"" ++ bk.title ++ "\"." }).status =
                "Book is not overdue." := h
            rw [if_neg hle] at h2
            exact absurd h2 (lateFeeStatus_ne_notOverdue bk.title)

/-- Store state for the sub-day-overdue scenario: one active loan due at
epoch second 1209600. -/
def stC10 : LibraryState :=
  ⟨[⟨1, "B", "A", "1111111111111", 2, 1⟩],
   [⟨"123456", 1, 0, 1209600, none⟩], 2⟩

/-- Closed instance of `sub_day_overdue_fee_c10`, 400 seconds past due. -/
theorem sub_day_overdue_fee_c10_witness :
    calculate_late_fee_for_book 1210000 stC10 "123456" 1 =
      ⟨0, 0, "Late fee calculated for \"B\"."⟩ :=
  sub_day_overdue_fee_c10.1 1210000 stC10 "123456" 1
    ⟨1, "B", "A", "1111111111111", 2, 1⟩ ⟨"123456", 1, 0, 1209600, none⟩
    (by decide) rfl rfl (by decide) (by decide)

end LibraryMgmt


namespace LibraryMgmt

lemma length_filter_map_le {α : Type} (l : List α) (f : α → α) (q : α → Bool)
    (hf : ∀ x, q (f x) = true → q x = true) :
    ((l.map f).filter q).length ≤ (l.filter q).length := by
  induction l with
  | nil => simp
  | cons x tl ih =>
    simp only [List.map_cons, List.filter_cons]
    cases hq : q (f x)
    · cases hqx : q x
      · simp only [Bool.false_eq_true, if_false]
        exact ih
      · simp only [Bool.false_eq_true, if_false, if_true, List.length_cons]
        exact Nat.le_succ_of_le ih
    · rw [hf x hq]
      simp only [if_true, List.length_cons]
      exact Nat.succ_le_succ ih

lemma length_filter_map_eq {α : Type} (l : List α) (f : α → α) (q pr : α → Bool)
    (h3 : ∀ x, pr x = false → f x = x)
    (h4 : ∀ x, pr x = true → q x = false ∧ q (f x) = false) :
    ((l.map f).filter q).length = (l.filter q).length := by
  induction l with
  | nil => simp
  | cons x tl ih =>
    simp only [List.map_cons, List.filter_cons]
    cases hpx : pr x
    · rw [h3 x hpx]
      cases hqx : q x
      · simp only [Bool.false_eq_true, if_false]
        exact ih
      · simp only [if_true, List.length_cons, ih]
    · obtain ⟨hq1, hq2⟩ := h4 x hpx
      rw [hq1, hq2]
      simp only [Bool.false_eq_true, if_false]
      exact ih

lemma length_filter_map_lt {α : Type} (l : List α) (f : α → α) (q pr : α → Bool)
    (hf : ∀ x, q (f x) = true → q x = true)
    (h3 : ∀ x, pr x = false → f x = x)
    (h4 : ∀ x, pr x = true → q x = true ∧ q (f x) = false)
    (x0 : α) (hx0 : x0 ∈ l) (hpx0 : pr x0 = true) :
    ((l.map f).filter q).length + 1 ≤ (l.filter q).length := by
  induction l with
  | nil => cases hx0
  | cons x tl ih =>
    simp only [List.map_cons, List.filter_cons]
    cases hpx : pr x
    · have hx0tl : x0 ∈ tl := by
        cases List.mem_cons.mp hx0 with
        | inl h => exact absurd (h ▸ hpx0) (by simp [hpx])
        | inr h => exact h
      rw [h3 x hpx]
      cases hqx : q x
      · simp only [Bool.false_eq_true, if_false]
        exact ih hx0tl
      · simp only [if_true, List.length_cons]
        exact Nat.succ_le_succ (ih hx0tl)
    · obtain ⟨hq1, hq2⟩ := h4 x hpx
      rw [hq1, hq2]
      simp only [Bool.false_eq_true, if_false, if_true, List.length_cons]
      exact Nat.succ_le_succ (length_filter_map_le tl f q hf)

end LibraryMgmt

namespace LibraryMgmt

lemma get_book_by_id_id {st : LibraryState} {B : ℤ} {bk : Book}
    (h : get_book_by_id st B = some bk) : bk.id = B := by
  unfold get_book_by_id at h
  have h2 := List.find?_some h
  exact eq_of_beq h2

lemma get_borrow_record_props {st : LibraryState} {p : String} {b : ℤ}
    {rec : BorrowRecord} (h : get_borrow_record st p b = some rec) :
    rec ∈ st.records ∧ rec.patron_id = p ∧ rec.book_id = b ∧
      rec.return_date = none := by
  unfold get_borrow_record at h
  have h1 := List.mem_of_find?_eq_some h
  have h2 := List.find?_some h
  simp only [Bool.and_eq_true, beq_iff_eq] at h2
  exact ⟨h1, h2.1.1, h2.1.2, h2.2⟩

lemma get_book_by_id_update_avail (st : LibraryState) (bid B δ : ℤ) :
    get_book_by_id (update_book_availability st bid δ) B =
      (get_book_by_id st B).map (fun bk =>
        if bk.id == bid
        then { bk with available_copies := bk.available_copies + δ }
        else bk) := by
  unfold get_book_by_id update_book_availability
  rw [List.find?_map]
  have hfn : ((fun bk : Book => bk.id == B) ∘ (fun bk : Book =>
      if bk.id == bid
      then { bk with available_copies := bk.available_copies + δ }
      else bk)) = (fun bk : Book => bk.id == B) := by
    funext bk
    by_cases h : (bk.id == bid) = true <;> simp [Function.comp, h]
  rw [hfn]

lemma books_insert_rec (st : LibraryState) (p : String) (b bd dd : ℤ) :
    (insert_borrow_record st p b bd dd).books = st.books := rfl

lemma books_finalize (st : LibraryState) (p : String) (b t : ℤ) :
    (update_borrow_record_return_date st p b t).books = st.books := rfl

lemma get_book_by_id_insert_rec (st : LibraryState) (p : String) (b bd dd B : ℤ) :
    get_book_by_id (insert_borrow_record st p b bd dd) B = get_book_by_id st B := rfl

lemma get_book_by_id_finalize (st : LibraryState) (p : String) (b t B : ℤ) :
    get_book_by_id (update_borrow_record_return_date st p b t) B =
      get_book_by_id st B := rfl

lemma book_active_count_update_avail (st : LibraryState) (bid δ B : ℤ) :
    book_active_count (update_book_availability st bid δ) B =
      book_active_count st B := rfl

lemma book_active_count_insert_same (st : LibraryState) (p : String) (b bd dd : ℤ) :
    book_active_count (insert_borrow_record st p b bd dd) b =
      book_active_count st b + 1 := by
  unfold book_active_count insert_borrow_record
  rw [List.filter_append, List.length_append]
  simp

lemma book_active_count_insert_other (st : LibraryState) (p : String)
    (b bd dd B : ℤ) (h : b ≠ B) :
    book_active_count (insert_borrow_record st p b bd dd) B =
      book_active_count st B := by
  unfold book_active_count insert_borrow_record
  rw [List.filter_append, List.length_append]
  simp [h]

lemma book_active_count_finalize_other (st : LibraryState) (p : String)
    (b t B : ℤ) (h : b ≠ B) :
    book_active_count (update_borrow_record_return_date st p b t) B =
      book_active_count st B := by
  unfold book_active_count update_borrow_record_return_date
  refine length_filter_map_eq _ _ _
    (fun r => r.patron_id == p && r.book_id == b && r.return_date == none) ?_ ?_
  · intro r hpr
    simp [hpr]
  · intro r hpr
    simp only [Bool.and_eq_true, beq_iff_eq] at hpr
    constructor
    · simp [hpr.1.2, h]
    · simp [hpr.1.1, hpr.1.2, hpr.2]

lemma book_active_count_finalize_same_lt (st : LibraryState) (p : String)
    (b t : ℤ) (rec : BorrowRecord) (hrec : get_borrow_record st p b = some rec) :
    book_active_count (update_borrow_record_return_date st p b t) b + 1 ≤
      book_active_count st b := by
  obtain ⟨hmem, hp, hb, hact⟩ := get_borrow_record_props hrec
  unfold book_active_count update_borrow_record_return_date
  refine length_filter_map_lt _ _ _
    (fun r => r.patron_id == p && r.book_id == b && r.return_date == none)
    ?_ ?_ ?_ rec hmem ?_
  · intro r hq
    by_cases hpr : (r.patron_id == p && r.book_id == b && r.return_date == none) = true
    · rw [if_pos hpr] at hq
      simp at hq
    · rw [if_neg hpr] at hq
      exact hq
  · intro r hpr
    simp [hpr]
  · intro r hpr
    simp only [Bool.and_eq_true, beq_iff_eq] at hpr
    constructor
    · simp [hpr.1.2, hpr.2]
    · simp [hpr.1.1, hpr.1.2, hpr.2]
  · simp [hp, hb, hact]

end LibraryMgmt

namespace LibraryMgmt

lemma borrow_cases (now : ℤ) (st : LibraryState) (p : String) (b : ℤ) :
    ((borrow_book_by_patron now st p b).1.1 = false ∧
      (borrow_book_by_patron now st p b).2 = st) ∨
    (∃ bk, get_book_by_id st b = some bk ∧ 0 < bk.available_copies ∧
      (borrow_book_by_patron now st p b).1.1 = true ∧
      (borrow_book_by_patron now st p b).2 =
        update_book_availability
          (insert_borrow_record st p b now (now + 14 * secondsPerDay)) b (-1)) := by
  unfold borrow_book_by_patron borrow_book_by_patron_w
  cases hv : validPatronId p
  · simp [hv]
  · cases hbk : get_book_by_id st b
    · simp [hv, hbk]
    · rename_i bk
      by_cases hav : bk.available_copies ≤ 0
      · simp [hv, hav]
      · by_cases hcnt : 5 ≤ get_patron_borrow_count st p
        · simp [hv, hav, hcnt]
        · right
          refine ⟨bk, rfl, by omega, ?_, ?_⟩ <;> simp [hv, hav, hcnt]

lemma return_cases (now : ℤ) (st : LibraryState) (p : String) (b : ℤ) :
    ((return_book_by_patron now st p b).1.1 = false ∧
      (return_book_by_patron now st p b).2 = st) ∨
    (∃ rec, get_borrow_record st p b = some rec ∧
      (return_book_by_patron now st p b).1.1 = true ∧
      (return_book_by_patron now st p b).2 =
        update_book_availability
          (update_borrow_record_return_date st p b now) b 1) := by
  unfold return_book_by_patron return_book_by_patron_w
  cases hv : validPatronId p
  · simp [hv]
  · cases hbk : get_book_by_id st b
    · simp [hv, hbk]
    · rename_i bk
      cases hrec : get_borrow_record st p b
      · simp [hv, hrec]
      · rename_i rec
        right
        refine ⟨rec, rfl, ?_, ?_⟩
        all_goals
          simp only [hv, Bool.not_true, Bool.false_eq_true, if_false]
          split
          all_goals split
          all_goals rfl

lemma add_book_cases (st : LibraryState) (t a i : String) (c : ℤ) :
    ((add_book_to_catalog st t a i c).1.1 = false ∧
      (add_book_to_catalog st t a i c).2 = st) ∨
    (0 < c ∧ (add_book_to_catalog st t a i c).2 =
      insert_book st (pyStrip t) (pyStrip a) i c c) := by
  unfold add_book_to_catalog
  split_ifs with h1 h2 h3 h4 h5 h6
  · exact Or.inl ⟨rfl, rfl⟩
  · exact Or.inl ⟨rfl, rfl⟩
  · exact Or.inl ⟨rfl, rfl⟩
  · exact Or.inl ⟨rfl, rfl⟩
  · exact Or.inl ⟨rfl, rfl⟩
  · exact Or.inl ⟨rfl, rfl⟩
  · cases hdup : get_book_by_isbn st i
    · exact Or.inr ⟨by omega, rfl⟩
    · exact Or.inl ⟨rfl, rfl⟩

end LibraryMgmt

namespace LibraryMgmt

lemma copiesInvB_parts {st : LibraryState} {B : ℤ} {bk : Book}
    (h : copiesInvB st B = true) (hB : get_book_by_id st B = some bk) :
    0 ≤ bk.available_copies ∧
      bk.available_copies + (book_active_count st B : ℤ) ≤ bk.total_copies := by
  unfold copiesInvB at h
  rw [hB] at h
  simpa using h

lemma copiesInvB_of_parts {st : LibraryState} {B : ℤ} {bk : Book}
    (hB : get_book_by_id st B = some bk)
    (h0 : 0 ≤ bk.available_copies)
    (h1 : bk.available_copies + (book_active_count st B : ℤ) ≤ bk.total_copies) :
    copiesInvB st B = true := by
  unfold copiesInvB
  rw [hB]
  simp [h0, h1]

lemma copiesInvB_none {st : LibraryState} {B : ℤ}
    (hB : get_book_by_id st B = none) : copiesInvB st B = true := by
  unfold copiesInvB
  rw [hB]

lemma copiesInvB_borrow (now : ℤ) (st : LibraryState) (p : String) (b B : ℤ)
    (h : copiesInvB st B = true) :
    copiesInvB (borrow_book_by_patron now st p b).2 B = true := by
  rcases borrow_cases now st p b with ⟨_, heq⟩ | ⟨bk, hbk, hav, _, heq⟩
  · rw [heq]
    exact h
  · rw [heq]
    cases hB : get_book_by_id st B
    · apply copiesInvB_none
      rw [get_book_by_id_update_avail, get_book_by_id_insert_rec, hB]
      rfl
    · rename_i bkB
      have hid : bkB.id = B := get_book_by_id_id hB
      obtain ⟨h0, h1⟩ := copiesInvB_parts h hB
      by_cases hbB : b = B
      · subst hbB
        have hbkeq : bk = bkB := Option.some.inj (hbk.symm.trans hB)
        subst hbkeq
        have hlook : get_book_by_id (update_book_availability
            (insert_borrow_record st p b now (now + 14 * secondsPerDay)) b (-1)) b =
            some { bk with available_copies := bk.available_copies + (-1) } := by
          rw [get_book_by_id_update_avail, get_book_by_id_insert_rec, hB]
          simp [hid]
        have hcnt : book_active_count (update_book_availability
            (insert_borrow_record st p b now (now + 14 * secondsPerDay)) b (-1)) b =
            book_active_count st b + 1 := by
          rw [book_active_count_update_avail, book_active_count_insert_same]
        have h0n : (0 : ℤ) ≤ bk.available_copies + (-1) := by omega
        apply copiesInvB_of_parts hlook h0n
        rw [hcnt]
        show bk.available_copies + (-1) +
          ((book_active_count st b + 1 : ℕ) : ℤ) ≤ bk.total_copies
        push_cast
        omega
      · have hlook : get_book_by_id (update_book_availability
            (insert_borrow_record st p b now (now + 14 * secondsPerDay)) b (-1)) B =
            some bkB := by
          rw [get_book_by_id_update_avail, get_book_by_id_insert_rec, hB]
          simp [hid, Ne.symm hbB]
        have hcnt : book_active_count (update_book_availability
            (insert_borrow_record st p b now (now + 14 * secondsPerDay)) b (-1)) B =
            book_active_count st B := by
          rw [book_active_count_update_avail,
            book_active_count_insert_other st p b now _ B hbB]
        apply copiesInvB_of_parts hlook h0
        rw [hcnt]
        exact h1

lemma copiesInvB_return (now : ℤ) (st : LibraryState) (p : String) (b B : ℤ)
    (h : copiesInvB st B = true) :
    copiesInvB (return_book_by_patron now st p b).2 B = true := by
  rcases return_cases now st p b with ⟨_, heq⟩ | ⟨rec, hrec, _, heq⟩
  · rw [heq]
    exact h
  · rw [heq]
    cases hB : get_book_by_id st B
    · apply copiesInvB_none
      rw [get_book_by_id_update_avail, get_book_by_id_finalize, hB]
      rfl
    · rename_i bkB
      have hid : bkB.id = B := get_book_by_id_id hB
      obtain ⟨h0, h1⟩ := copiesInvB_parts h hB
      by_cases hbB : b = B
      · subst hbB
        have hcnt := book_active_count_finalize_same_lt st p b now rec hrec
        have hcnt2 : book_active_count (update_book_availability
            (update_borrow_record_return_date st p b now) b 1) b =
            book_active_count (update_borrow_record_return_date st p b now) b :=
          book_active_count_update_avail _ _ _ _
        have hlook : get_book_by_id (update_book_availability
            (update_borrow_record_return_date st p b now) b 1) b =
            some { bkB with available_copies := bkB.available_copies + 1 } := by
          rw [get_book_by_id_update_avail, get_book_by_id_finalize, hB]
          simp [hid]
        have h0n : (0 : ℤ) ≤ bkB.available_copies + 1 := by omega
        apply copiesInvB_of_parts hlook h0n
        rw [hcnt2]
        show bkB.available_copies + 1 +
          ((book_active_count (update_borrow_record_return_date st p b now) b : ℕ) : ℤ) ≤
          bkB.total_copies
        omega
      · have hlook : get_book_by_id (update_book_availability
            (update_borrow_record_return_date st p b now) b 1) B = some bkB := by
          rw [get_book_by_id_update_avail, get_book_by_id_finalize, hB]
          simp [hid, Ne.symm hbB]
        have hcnt : book_active_count (update_book_availability
            (update_borrow_record_return_date st p b now) b 1) B =
            book_active_count st B := by
          rw [book_active_count_update_avail,
            book_active_count_finalize_other st p b now B hbB]
        apply copiesInvB_of_parts hlook h0
        rw [hcnt]
        exact h1

lemma copiesInvB_applyOp (st : LibraryState) (op : LibOp) (B : ℤ)
    (h : copiesInvB st B = true) : copiesInvB (applyOp st op) B = true := by
  cases op with
  | borrowOp now p b => exact copiesInvB_borrow now st p b B h
  | returnOp now p b => exact copiesInvB_return now st p b B h

lemma copiesInvB_runOps (st : LibraryState) (B : ℤ) (ops : List LibOp)
    (h : copiesInvB st B = true) : copiesInvB (runOps st ops) B = true := by
  induction ops generalizing st with
  | nil => exact h
  | cons op tl ih => exact ih _ (copiesInvB_applyOp st op B h)

lemma borrow_success_avail (now : ℤ) (st : LibraryState) (p : String) (b : ℤ)
    (bk : Book) (hs : (borrow_book_by_patron now st p b).1.1 = true)
    (hbk : get_book_by_id st b = some bk) :
    get_book_by_id (borrow_book_by_patron now st p b).2 b =
      some { bk with available_copies := bk.available_copies - 1 } := by
  rcases borrow_cases now st p b with ⟨hf, _⟩ | ⟨bk2, hbk2, _, _, heq⟩
  · rw [hs] at hf
    cases hf
  · have hbkeq : bk2 = bk := Option.some.inj (hbk2.symm.trans hbk)
    subst hbkeq
    have hid : bk2.id = b := get_book_by_id_id hbk
    rw [heq, get_book_by_id_update_avail, get_book_by_id_insert_rec, hbk]
    have harith : bk2.available_copies + (-1) = bk2.available_copies - 1 := by ring
    simp only [Option.map_some', hid]
    rw [harith]
    simp

lemma return_success_avail (now : ℤ) (st : LibraryState) (p : String) (b : ℤ)
    (bk : Book) (hs : (return_book_by_patron now st p b).1.1 = true)
    (hbk : get_book_by_id st b = some bk) :
    get_book_by_id (return_book_by_patron now st p b).2 b =
      some { bk with available_copies := bk.available_copies + 1 } := by
  rcases return_cases now st p b with ⟨hf, _⟩ | ⟨rec, hrec, _, heq⟩
  · rw [hs] at hf
    cases hf
  · have hid : bk.id = b := get_book_by_id_id hbk
    rw [heq, get_book_by_id_update_avail, get_book_by_id_finalize, hbk]
    simp only [Option.map_some', hid]
    simp

end LibraryMgmt

namespace LibraryMgmt

/-- Fresh two-copy book with no loans, for the C8 witness run. -/
def stC8 : LibraryState := ⟨[⟨1, "B", "A", "1111111111111", 2, 2⟩], [], 2⟩

/-- C8: starting from creation with available_copies = total_copies, every
sequence of sequential borrow/return operations preserves
0 ≤ available_copies ≤ total_copies, and each successful borrow changes
available_copies by exactly −1 and each successful return by exactly +1. -/
theorem available_copies_invariant_c8 :
    (∀ st t a i c, get_book_by_id st st.nextId = none →
        book_active_count st st.nextId = 0 →
        (add_book_to_catalog st t a i c).1.1 = true →
        copiesInvB (add_book_to_catalog st t a i c).2 st.nextId = true) ∧
    (∀ st B ops, copiesInvB st B = true →
        copiesInvB (runOps st ops) B = true) ∧
    (∀ now st p b bk, (borrow_book_by_patron now st p b).1.1 = true →
        get_book_by_id st b = some bk →
        get_book_by_id (borrow_book_by_patron now st p b).2 b =
          some { bk with available_copies := bk.available_copies - 1 }) ∧
    (∀ now st p b bk, (return_book_by_patron now st p b).1.1 = true →
        get_book_by_id st b = some bk →
        get_book_by_id (return_book_by_patron now st p b).2 b =
          some { bk with available_copies := bk.available_copies + 1 }) ∧
    (∀ st B bk, copiesInvB st B = true → get_book_by_id st B = some bk →
        0 ≤ bk.available_copies ∧ bk.available_copies ≤ bk.total_copies) := by
  refine ⟨?_, ?_, ?_, ?_, ?_⟩
  · intro st t a i c hfresh hcount hs
    rcases add_book_cases st t a i c with ⟨hf, _⟩ | ⟨hc, heq⟩
    · rw [hs] at hf
      cases hf
    · rw [heq]
      have hlook : get_book_by_id (insert_book st (pyStrip t) (pyStrip a) i c c)
          st.nextId =
          some (Book.mk st.nextId (pyStrip t) (pyStrip a) i c c) := by
        unfold get_book_by_id at hfresh
        unfold get_book_by_id insert_book
        simp [List.find?_append, hfresh]
      have hcnt : book_active_count (insert_book st (pyStrip t) (pyStrip a) i c c)
          st.nextId = 0 := hcount
      have h0n : (0 : ℤ) ≤ c := by omega
      apply copiesInvB_of_parts hlook h0n
      rw [hcnt]
      show c + ((0 : ℕ) : ℤ) ≤ c
      omega
  · intro st B ops h
    exact copiesInvB_runOps st B ops h
  · intro now st p b bk hs hbk
    exact borrow_success_avail now st p b bk hs hbk
  · intro now st p b bk hs hbk
    exact return_success_avail now st p b bk hs hbk
  · intro st B bk h hB
    obtain ⟨h0, h1⟩ := copiesInvB_parts h hB
    have hc : (0 : ℤ) ≤ (book_active_count st B : ℤ) := Int.natCast_nonneg _
    exact ⟨h0, by omega⟩

/-- Closed instance of `available_copies_invariant_c8`: the invariant survives
a borrow, a return, and a further borrow on a concrete store. -/
theorem available_copies_invariant_c8_witness :
    copiesInvB stC8 1 = true ∧
    copiesInvB (runOps stC8
      [LibOp.borrowOp 0 "123456" 1, LibOp.returnOp 100 "123456" 1,
       LibOp.borrowOp 200 "654321" 1]) 1 = true :=
  ⟨by decide,
   available_copies_invariant_c8.2.1 stC8 1
     [LibOp.borrowOp 0 "123456" 1, LibOp.returnOp 100 "123456" 1,
      LibOp.borrowOp 200 "654321" 1] (by decide)⟩

end LibraryMgmt

namespace LibraryMgmt

/-- Closed instance of `borrow_cap_inclusive_c6`: the concrete 5-loan patron
is rejected with the borrowing-limit error and unchanged state. -/
theorem borrow_cap_inclusive_c6_witness :
    borrow_book_by_patron 100 stC6 "123456" 6 =
      ((false, "You have reached the maximum borrowing limit of 5 books."),
       stC6) :=
  borrow_cap_inclusive_c6.1 100 stC6 "123456" 6
    ⟨6, "Book 6", "A", "0000000000006", 1, 1⟩ (by decide) rfl (by decide)
    (by decide)

end LibraryMgmt
